import Mathlib

/-!
Shallow embedding of the client-side session / request-gateway core of the
playlist-converter frontend (the token-based draft of `App.js`): token store,
expiry policy, axios request interceptor, gateway `fetchAPI`, session status
check, logout, OAuth callback handler, and the conversion submission handler.

JavaScript conventions modelled explicitly:
- `localStorage` entries are `Option String` / `Option`-valued fields
  (`none` = key absent).  The expiry entry is written with `toString` of a JS
  number and read back with `parseInt`, which is the identity on integers and
  on NaN, so it is modelled directly as `Option (Option Int)`: outer `none` =
  key absent, inner `none` = NaN, `some e` = the integer value.
- JS string truthiness: `null`/`undefined` and `""` are falsy (`truthyStr`).
- JS number truthiness: `null`, NaN and `0` are falsy.
- The wall clock (`Date.now()`) is passed as an explicit `nowMs : Int`
  parameter; backend responses are passed as an explicit `ApiResponse` oracle.
-/

namespace PlaylistConverter

/-- Truthiness of a JS string-or-null value: `null`/`undefined` and the empty
string are falsy, every other string is truthy. -/
def truthyStr : Option String → Bool
  | none => false
  | some s => s ≠ ""

/-- JS `a || b` on a string-or-null `a` with string fallback `b`. -/
def jsOrStr (a : Option String) (b : String) : String :=
  match a with
  | none => b
  | some s => if s = "" then b else s

/-- Value of a list of decimal digit characters. -/
def digitsVal (ds : List Char) : Nat :=
  ds.foldl (fun a c => a * 10 + (c.toNat - 48)) 0

/-- Model of JS `parseInt(s, 10)`: an optional sign followed by leading
decimal digits; `none` models NaN (no parsable leading digits). -/
def jsParseInt (s : String) : Option Int :=
  let core : List Char → Option Int := fun cs =>
    let ds := cs.takeWhile Char.isDigit
    if ds.isEmpty then none else some (digitsVal ds : Int)
  match s.data with
  | '-' :: rest => (core rest).map (fun n => -n)
  | '+' :: rest => core rest
  | cs => core cs

/-- The three durable `localStorage` entries
(`spotify_access_token`, `spotify_refresh_token`, `spotify_expiry_timestamp`). -/
structure Store where
  accessToken : Option String := none
  refreshToken : Option String := none
  expiryTimestamp : Option (Option Int) := none
deriving DecidableEq

/-- Error condition reported by the token store on an incomplete save
(source: the `console.error` + early-return guard in `storeTokens`). -/
inductive StoreError where
  | malformedCredential
deriving DecidableEq

/-- `storeTokens(accessToken, refreshToken, expiresIn)` (source lines 320-335):
rejects a missing/empty access token or lifetime, otherwise stores the access
token, stores or removes the refresh token, and stores
`Date.now() + parseInt(expiresIn, 10) * 1000` as the expiry timestamp
(`none` inside the expiry models the NaN produced by an unparsable lifetime). -/
def storeTokens (st : Store) (accessToken refreshToken expiresIn : Option String)
    (nowMs : Int) : Store × Option StoreError :=
  if !(truthyStr accessToken) || !(truthyStr expiresIn) then
    (st, some .malformedCredential)
  else
    let expiry : Option Int := (jsParseInt (expiresIn.getD "")).map (fun k => nowMs + k * 1000)
    ({ accessToken := accessToken,
       refreshToken := if truthyStr refreshToken then refreshToken else none,
       expiryTimestamp := some expiry }, none)

/-- `getAccessToken()`. -/
def getAccessToken (st : Store) : Option String := st.accessToken

/-- `getRefreshToken()`. -/
def getRefreshToken (st : Store) : Option String := st.refreshToken

/-- `getExpiryTimestamp()`: `timestamp ? parseInt(timestamp, 10) : null`; a
stored value is the decimal rendering of a JS number, which is a truthy,
parseable string, so this is the stored value itself (`none` = null). -/
def getExpiryTimestamp (st : Store) : Option (Option Int) := st.expiryTimestamp

/-- `clearTokens()`: removes all three entries. -/
def clearTokens (_st : Store) : Store :=
  { accessToken := none, refreshToken := none, expiryTimestamp := none }

/-- `isTokenExpired()` (source lines 352-357): `!expiry` is true for null, NaN
and the number 0; otherwise expired iff `Date.now() >= expiry - 60 * 1000`. -/
def isTokenExpired (st : Store) (nowMs : Int) : Bool :=
  match getExpiryTimestamp st with
  | none => true
  | some none => true
  | some (some e) =>
    if e = 0 then true
    else decide (nowMs ≥ e - 60 * 1000)

/-- Axios request interceptor (source lines 370-391): returns the possibly
updated store and the value of the `Authorization` header, if attached. -/
def requestInterceptor (st : Store) (nowMs : Int) : Store × Option String :=
  let token := getAccessToken st
  if truthyStr token && !(isTokenExpired st nowMs) then
    (st, some ("Bearer " ++ token.getD ""))
  else if truthyStr token && isTokenExpired st nowMs then
    (clearTokens st, none)
  else
    (st, none)

/-- Backend user record (`data.user`). -/
structure User where
  id : String
  display_name : Option String := none
deriving DecidableEq

/-- Conversion payload (`data.data`) as consumed by the results view. -/
structure ConvData where
  spotify_playlist_url : Option String := none
  spotify_playlist_name : Option String := none
  total_youtube_tracks : Option Nat := none
  found_spotify_tracks : Option Nat := none
  tracks_added : Option Nat := none
  api_errors : List String := []
  not_found_tracks : List String := []
deriving DecidableEq

/-- Body of a 2xx backend response (`response.data`): the fields the client
reads for `/auth/status` (`user`) and `/convert` (`success`, `data`, `error`). -/
structure RespData where
  user : Option User := none
  success : Bool := false
  data : Option ConvData := none
  error : Option String := none
deriving DecidableEq

/-- Body of a non-2xx backend response (`err.response.data`). -/
structure ErrBody where
  message : Option String := none
  error : Option String := none
deriving DecidableEq

/-- Outcome of one axios dispatch, as seen by `fetchAPI`'s try/catch:
a 2xx response with a body, a non-2xx response with a status and an optional
(truthy) body, a request that got no response, or a request setup failure. -/
inductive ApiResponse where
  | ok (data : RespData)
  | httpError (status : Nat) (body : Option ErrBody)
  | noResponse
  | setupError (msg : String)
deriving DecidableEq

/-- The React state of `MainApp` that the embedded handlers read and write,
together with the token store. -/
structure AppState where
  store : Store
  isLoggedIn : Bool := false
  userData : Option User := none
  playlistUrl : String := ""
  playlistName : String := ""
  isAuthLoading : Bool := true
  isConverting : Bool := false
  error : Option String := none
  results : Option ConvData := none
deriving DecidableEq

/-- The message `fetchAPI` surfaces on a 401 response. -/
def sessionExpiredMessage : String :=
  "Your session has expired or is invalid. Please log in again."

/-- The message surfaced when the request got no response at all. -/
def unreachableMessage : String :=
  "No response received from server. Check network or server status."

/-- `fetchAPI` of `MainApp` (source lines 471-514): returns `response.data` on
success; in the catch block, a 401 clears the tokens, forces the logged-out
state and surfaces the session-expired message; any other failure is folded
into an error message; every failure path resolves to `none`. -/
def fetchAPI (st : AppState) (resp : ApiResponse) : AppState × Option RespData :=
  match resp with
  | .ok d => (st, some d)
  | .httpError status body =>
    if status = 401 then
      ({ st with store := clearTokens st.store, isLoggedIn := false, userData := none,
                 error := some sessionExpiredMessage,
                 isAuthLoading := false, isConverting := false }, none)
    else
      let msg := match body with
        | some ed => jsOrStr ed.message
            (jsOrStr ed.error ("Request failed with status " ++ toString status))
        | none => unreachableMessage
      ({ st with error := some msg, isAuthLoading := false, isConverting := false }, none)
  | .noResponse =>
      ({ st with error := some unreachableMessage,
                 isAuthLoading := false, isConverting := false }, none)
  | .setupError m =>
      ({ st with error := some m, isAuthLoading := false, isConverting := false }, none)

/-- `checkAuthStatus` (source lines 517-560).  The returned `Bool` records
whether the backend `/auth/status` endpoint was actually called.  With no
token or an expired token it clears the store and goes logged-out without any
network call; otherwise it dispatches through the interceptor and `fetchAPI`
(with `resp` the backend's answer): a body carrying a user record logs in,
anything else clears the store and goes logged-out. -/
def checkAuthStatus (st : AppState) (nowMs : Int) (resp : ApiResponse) :
    AppState × Bool :=
  let st := { st with isAuthLoading := true, error := none }
  let token := getAccessToken st.store
  if !(truthyStr token) || isTokenExpired st.store nowMs then
    ({ st with store := clearTokens st.store, isLoggedIn := false, userData := none,
               isAuthLoading := false }, false)
  else
    let store2 := (requestInterceptor st.store nowMs).1
    let r := fetchAPI { st with store := store2 } resp
    let st3 := match r.2 with
      | some d =>
        match d.user with
        | some u => { r.1 with isLoggedIn := true, userData := some u }
        | none => { r.1 with store := clearTokens r.1.store,
                             isLoggedIn := false, userData := none }
      | none => { r.1 with store := clearTokens r.1.store,
                           isLoggedIn := false, userData := none }
    ({ st3 with isAuthLoading := false }, true)

/-- `handleLogout` (source lines 568-575): purely local.  The returned list
records the backend endpoints invoked; the source body contains no `fetchAPI`
call, so it is empty. -/
def handleLogout (st : AppState) : AppState × List String :=
  ({ st with store := clearTokens st.store, isLoggedIn := false, userData := none,
             error := none, results := none }, [])

/-- Default playlist name used when the form field is falsy. -/
def defaultPlaylistName : String := "Converted YouTube Playlist"

/-- Body posted to `/convert`. -/
structure ConvertRequest where
  playlist_url : String
  playlist_name : String
deriving DecidableEq

/-- `handleConvert` (source lines 578-611): builds the post body (with the
default playlist name when the field is falsy), dispatches through the
interceptor and `fetchAPI`, then: a body flagged successful stores its payload
and clears the form; a body carrying a truthy `error` surfaces it and stores
the payload only when one is present; anything else changes nothing further. -/
def handleConvert (st : AppState) (nowMs : Int) (resp : ApiResponse) :
    AppState × ConvertRequest :=
  let st := { st with isConverting := true, error := none, results := none }
  let postData : ConvertRequest :=
    { playlist_url := st.playlistUrl,
      playlist_name := if st.playlistName = "" then defaultPlaylistName
                       else st.playlistName }
  let store2 := (requestInterceptor st.store nowMs).1
  let r := fetchAPI { st with store := store2 } resp
  let st3 := match r.2 with
    | some d =>
      if d.success then
        { r.1 with results := d.data, playlistUrl := "", playlistName := "" }
      else if truthyStr d.error then
        { r.1 with error := d.error,
                   results := if d.data.isSome then d.data else r.1.results }
      else r.1
    | none => r.1
  ({ st3 with isConverting := false }, postData)

/-- Parameters parsed from the OAuth callback's URL fragment
(`URLSearchParams` over the hash; `none` = parameter absent). -/
structure CallbackParams where
  access_token : Option String := none
  refresh_token : Option String := none
  expires_in : Option String := none
  error : Option String := none
deriving DecidableEq

/-- JS `s.replace(/_/g, ' ')`. -/
def replaceUnderscores (s : String) : String :=
  String.mk (s.data.map (fun c => if c = '_' then ' ' else c))

/-- The generic reason carried home on a malformed callback. -/
def invalidCallbackMessage : String := "Invalid authentication callback received."

/-- `AuthCallback`'s effect (source lines 401-430): returns the store after the
handler runs and the `authError` reason carried in the navigation state to the
home route (`none` = redirect with no error).  An `error` parameter clears the
tokens and carries a human-readable reason; a fragment with both an access
token and a lifetime persists via `storeTokens`; otherwise the generic
invalid-callback reason is carried (and the store is not touched). -/
def authCallback (st : Store) (p : CallbackParams) (nowMs : Int) :
    Store × Option String :=
  if truthyStr p.error then
    (clearTokens st,
     some ("Login failed: " ++ replaceUnderscores (p.error.getD "") ++ "."))
  else if truthyStr p.access_token && truthyStr p.expires_in then
    ((storeTokens st p.access_token p.refresh_token p.expires_in nowMs).1, none)
  else
    (st, some invalidCallbackMessage)

/-- Claim C1: every backend call that yields a 401 response makes the gateway
client clear all stored token entries, force the logged-out session state
(isLoggedIn false, user data null), and hand the triggering caller the
session-expired error condition rather than a successful result. -/
theorem gateway_401_clears_store_and_reports_expired (st : AppState)
    (body : Option ErrBody) :
    (fetchAPI st (.httpError 401 body)).1.store
        = { accessToken := none, refreshToken := none, expiryTimestamp := none } ∧
    (fetchAPI st (.httpError 401 body)).1.isLoggedIn = false ∧
    (fetchAPI st (.httpError 401 body)).1.userData = none ∧
    (fetchAPI st (.httpError 401 body)).1.error = some sessionExpiredMessage ∧
    (fetchAPI st (.httpError 401 body)).2 = none := by
  refine ⟨?_, ?_, ?_, ?_, ?_⟩ <;> simp [fetchAPI, clearTokens]

/-- Claim C2, counterexample: a credential whose recorded expiry timestamp is
the (falsy) number 0 is treated as expired by the code at `nowMs = -70000`,
although `nowMs < expiryTimestampMs - 60000` holds there, so the claimed
"valid iff `nowMs < expiryTimestampMs - 60000`" equivalence fails for that
credential and clock value. -/
theorem expiry_zero_timestamp_counterexample :
    isTokenExpired { accessToken := some "t", refreshToken := none,
                     expiryTimestamp := some (some 0) } (-70000) = true ∧
    ((-70000 : Int) < 0 - 60000) := ⟨rfl, by decide⟩

/-- Claim C2, amended: for every credential and every nonnegative current time
`nowMs`, a credential with recorded integer expiry `e` is valid (not expired)
iff `nowMs < e - 60000` strictly, and a credential with no recorded expiry
timestamp is always invalid. -/
theorem expiry_policy_iff_on_clock_times (st : Store) (nowMs e : Int)
    (h0 : 0 ≤ nowMs) :
    (st.expiryTimestamp = some (some e) →
       (isTokenExpired st nowMs = false ↔ nowMs < e - 60000)) ∧
    (st.expiryTimestamp = none → isTokenExpired st nowMs = true) := by
  constructor
  · intro he
    by_cases hz : e = 0
    · subst hz
      simp [isTokenExpired, getExpiryTimestamp, he]
      omega
    · simp [isTokenExpired, getExpiryTimestamp, he, hz]
      omega
  · intro he
    simp [isTokenExpired, getExpiryTimestamp, he]

/-- Witness for the amended C2 at a concrete credential and clock value. -/
theorem expiry_policy_iff_on_clock_times_witness :
    isTokenExpired { accessToken := some "t", refreshToken := none,
                     expiryTimestamp := some (some 200000) } 100000 = false :=
  ((expiry_policy_iff_on_clock_times
      { accessToken := some "t", refreshToken := none,
        expiryTimestamp := some (some 200000) } 100000 200000 (by decide)).1
    rfl).mpr (by decide)

/-- Claim C3: before dispatch, a present and valid credential gets attached as
a bearer authorization header; a present but invalid credential is removed
from the token store and no header is attached; an absent credential means no
header and an untouched store. -/
theorem interceptor_bearer_or_clear_or_plain (st : Store) (nowMs : Int) :
    (truthyStr st.accessToken = true → isTokenExpired st nowMs = false →
       requestInterceptor st nowMs
         = (st, some ("Bearer " ++ st.accessToken.getD ""))) ∧
    (truthyStr st.accessToken = true → isTokenExpired st nowMs = true →
       requestInterceptor st nowMs = (clearTokens st, none)) ∧
    (truthyStr st.accessToken = false →
       requestInterceptor st nowMs = (st, none)) := by
  refine ⟨fun h1 h2 => ?_, fun h1 h2 => ?_, fun h1 => ?_⟩ <;>
    simp [requestInterceptor, getAccessToken, *]

/-- Witness for C3 at a concrete valid credential. -/
theorem interceptor_bearer_or_clear_or_plain_witness :
    requestInterceptor { accessToken := some "tok", refreshToken := none,
                         expiryTimestamp := some (some 1000000) } 0
      = ({ accessToken := some "tok", refreshToken := none,
           expiryTimestamp := some (some 1000000) }, some "Bearer tok") :=
  (interceptor_bearer_or_clear_or_plain
      { accessToken := some "tok", refreshToken := none,
        expiryTimestamp := some (some 1000000) } 0).1 rfl rfl

/-- Claim C4: a status check with no stored credential or an invalid one goes
directly to the logged-out state (store cleared, isLoggedIn false, user data
null) with no network call; with a valid credential the backend status
endpoint is called, and a response carrying a user record logs the session in
with that user. -/
theorem status_check_short_circuit_or_login (st : AppState) (nowMs : Int)
    (resp : ApiResponse) :
    ((truthyStr (getAccessToken st.store) = false
        ∨ isTokenExpired st.store nowMs = true) →
       checkAuthStatus st nowMs resp
         = ({ st with store := (Store.mk none none none),
                      isLoggedIn := false, userData := none,
                      isAuthLoading := false, error := none }, false)) ∧
    (∀ d u, truthyStr (getAccessToken st.store) = true →
       isTokenExpired st.store nowMs = false →
       resp = .ok d → d.user = some u →
       (checkAuthStatus st nowMs resp).1.isLoggedIn = true ∧
       (checkAuthStatus st nowMs resp).1.userData = some u ∧
       (checkAuthStatus st nowMs resp).2 = true) := by
  constructor
  · intro h
    rcases h with h | h <;> simp [checkAuthStatus, clearTokens, h]
  · intro d u h1 h2 hr hu
    subst hr
    simp only [getAccessToken] at h1
    simp [checkAuthStatus, requestInterceptor, fetchAPI, getAccessToken, h1, h2, hu]

/-- Witness for C4 on the spec's scenario: a valid stored token and a backend
response carrying user `u1`. -/
theorem status_check_short_circuit_or_login_witness :
    (checkAuthStatus
        { store := { accessToken := some "tok", refreshToken := none,
                     expiryTimestamp := some (some 200000) } } 100000
        (.ok { user := some { id := "u1" } })).1.isLoggedIn = true ∧
    (checkAuthStatus
        { store := { accessToken := some "tok", refreshToken := none,
                     expiryTimestamp := some (some 200000) } } 100000
        (.ok { user := some { id := "u1" } })).1.userData = some { id := "u1" } ∧
    (checkAuthStatus
        { store := { accessToken := some "tok", refreshToken := none,
                     expiryTimestamp := some (some 200000) } } 100000
        (.ok { user := some { id := "u1" } })).2 = true :=
  (status_check_short_circuit_or_login
      { store := { accessToken := some "tok", refreshToken := none,
                   expiryTimestamp := some (some 200000) } } 100000
      (.ok { user := some { id := "u1" } })).2
    { user := some { id := "u1" } } { id := "u1" } rfl rfl rfl rfl

/-- Claim C5: saving with a missing (or empty) access token or lifetime value
leaves all three stored entries unchanged and reports the malformed-credential
condition to the caller. -/
theorem save_malformed_is_noop (st : Store) (a r e : Option String) (nowMs : Int)
    (h : truthyStr a = false ∨ truthyStr e = false) :
    storeTokens st a r e nowMs = (st, some StoreError.malformedCredential) := by
  rcases h with h | h <;> simp [storeTokens, h]

/-- Witness for C5: saving with no access token over a populated store. -/
theorem save_malformed_is_noop_witness :
    storeTokens { accessToken := some "x", refreshToken := some "y",
                  expiryTimestamp := some (some 5) } none (some "r") (some "3600") 0
      = ({ accessToken := some "x", refreshToken := some "y",
           expiryTimestamp := some (some 5) },
         some StoreError.malformedCredential) :=
  save_malformed_is_noop
    { accessToken := some "x", refreshToken := some "y",
      expiryTimestamp := some (some 5) } none (some "r") (some "3600") 0
    (Or.inl rfl)

/-- Claim C6, counterexample: the backend response
`{success:false, data:{unmatched list ["Song A"], api errors []}}` carries a
data payload but no `error` field, and the handler leaves no visible result
(`results = none`) instead of retaining the payload as the claim states. -/
theorem convert_unsuccessful_payload_counterexample :
    (handleConvert { store := (Store.mk none none none), playlistUrl := "u",
                     isAuthLoading := false } 0
        (.ok { success := false,
               data := some { not_found_tracks := ["Song A"] },
               error := none })).1.results = none := rfl

/-- Claim C6, amended: a conversion response flagged unsuccessful retains its
data payload as the visible result (and surfaces the error message) only when
it also carries a truthy `error` field; an unsuccessful response without one
leaves no result visible. -/
theorem convert_unsuccessful_retains_only_with_error (st : AppState)
    (nowMs : Int) (d : RespData) (hs : d.success = false) :
    (truthyStr d.error = true → d.data.isSome = true →
       (handleConvert st nowMs (.ok d)).1.results = d.data ∧
       (handleConvert st nowMs (.ok d)).1.error = d.error) ∧
    (truthyStr d.error = false →
       (handleConvert st nowMs (.ok d)).1.results = none) := by
  constructor
  · intro he hd
    constructor <;> simp [handleConvert, fetchAPI, hs, he, hd]
  · intro he
    simp [handleConvert, fetchAPI, hs, he]

/-- Witness for the amended C6: an unsuccessful response carrying both an
error message and the payload with unmatched track "Song A". -/
theorem convert_unsuccessful_retains_only_with_error_witness :
    (handleConvert { store := (Store.mk none none none), playlistUrl := "u",
                     isAuthLoading := false } 0
        (.ok { success := false,
               data := some { not_found_tracks := ["Song A"] },
               error := some "some tracks failed" })).1.results
      = some { not_found_tracks := ["Song A"] } :=
  ((convert_unsuccessful_retains_only_with_error
      { store := (Store.mk none none none), playlistUrl := "u",
        isAuthLoading := false } 0
      { success := false, data := some { not_found_tracks := ["Song A"] },
        error := some "some tracks failed" } rfl).1 rfl rfl).1

/-- Claim C7: a callback fragment with an access token and a lifetime but no
refresh token stores that access token, removes any previously stored refresh
token, and records the expiry timestamp `nowMs + expiresIn * 1000`. -/
theorem callback_stores_token_drops_old_refresh (st : Store) (nowMs : Int)
    (a es : String) (k : Int) (ha : a ≠ "") (he : es ≠ "")
    (hk : jsParseInt es = some k) :
    authCallback st { access_token := some a, expires_in := some es } nowMs
      = ({ accessToken := some a, refreshToken := none,
           expiryTimestamp := some (some (nowMs + k * 1000)) }, none) := by
  simp [authCallback, truthyStr, ha, he, storeTokens, hk]

/-- Witness for C7: fragment `access_token=A&expires_in=3600` over a store
holding an older credential with a refresh token, at clock 0. -/
theorem callback_stores_token_drops_old_refresh_witness :
    authCallback (Store.mk (some "old") (some "oldref") (some (some 5)))
      { access_token := some "A", expires_in := some "3600" } 0
      = ({ accessToken := some "A", refreshToken := none,
           expiryTimestamp := some (some 3600000) }, none) :=
  callback_stores_token_drops_old_refresh
    (Store.mk (some "old") (some "oldref") (some (some 5))) 0 "A" "3600" 3600
    (by decide) (by decide) (by decide)

/-- Claim C8, counterexample: on a malformed callback (no error parameter, no
token/lifetime pair) over a store holding a credential, the handler carries
the generic invalid-callback reason but leaves the stored credential intact —
the access-token entry is still present — contradicting the claimed clearing
of all token entries. -/
theorem callback_malformed_counterexample :
    authCallback (Store.mk (some "tok") (some "ref") (some (some 99))) { } 0
      = (Store.mk (some "tok") (some "ref") (some (some 99)),
         some invalidCallbackMessage) ∧
    (authCallback (Store.mk (some "tok") (some "ref") (some (some 99))) { } 0).1.accessToken
      = some "tok" := ⟨rfl, rfl⟩

/-- Claim C8, amended: on a malformed callback (neither an error parameter nor
both an access token and a lifetime value) the handler records the generic
invalid-callback reason and redirects home carrying it, leaving the stored
credential untouched (the store is not cleared). -/
theorem callback_malformed_keeps_store (st : Store) (p : CallbackParams)
    (nowMs : Int) (he : truthyStr p.error = false)
    (hm : (truthyStr p.access_token && truthyStr p.expires_in) = false) :
    authCallback st p nowMs = (st, some invalidCallbackMessage) := by
  simp [authCallback, he, hm]

/-- Witness for the amended C8: an empty fragment over a store holding a
token. -/
theorem callback_malformed_keeps_store_witness :
    authCallback (Store.mk (some "tok") none none) { } 5
      = (Store.mk (some "tok") none none, some invalidCallbackMessage) :=
  callback_malformed_keeps_store (Store.mk (some "tok") none none) { } 5 rfl rfl

/-- Claim C9: logout clears all three stored token entries, forces the
logged-out session state, clears any prior conversion result and error, and
invokes no backend endpoint. -/
theorem logout_clears_locally_no_network (st : AppState) :
    handleLogout st
      = ({ st with store := (Store.mk none none none), isLoggedIn := false,
                   userData := none, error := none, results := none }, []) := rfl

/-- Claim C10: a conversion submission with an empty playlist-name field sends
a request body whose playlist name is the literal default. -/
theorem convert_empty_name_uses_default (st : AppState) (nowMs : Int)
    (resp : ApiResponse) (h : st.playlistName = "") :
    (handleConvert st nowMs resp).2.playlist_name
      = "Converted YouTube Playlist" := by
  simp [handleConvert, defaultPlaylistName, h]

/-- Witness for C10 at a concrete state with an empty playlist-name field. -/
theorem convert_empty_name_uses_default_witness :
    (handleConvert { store := (Store.mk none none none), playlistUrl := "u",
                     isAuthLoading := false } 0 .noResponse).2.playlist_name
      = "Converted YouTube Playlist" :=
  convert_empty_name_uses_default
    { store := (Store.mk none none none), playlistUrl := "u",
      isAuthLoading := false } 0 .noResponse rfl

end PlaylistConverter
